import Mathlib

set_option maxRecDepth 10000

/-!
Verification development for the HirePrep live-interview client.

This file gives a shallow embedding, in Lean 4, of the algorithmic core of the
repository:

* `GeminiLiveClient` (src/services/geminiService.ts): the streaming session
  channel — voice-activity-gated microphone capture (`onaudioprocess`),
  nearest-sample decimation (`downsample`), guarded transmission (`safeSend`),
  gapless playback scheduling (`queueAudio`), teardown (`disconnect`,
  `stopAudioInput`) and inbound message dispatch (`safeHandleMessage`).
* `InterviewGraph` (same file): the conversation orchestrator — question budget
  (`totalQs`), assessment persistence (`handleAssessment`) and the
  `save_assessment` tool-call handler with wrap-up/termination.
* `AnalysisService` (src/services/analysisService.ts): the audio metric
  pipeline (`audioTick`, `calculateSpeechMetrics`) and the gaze pipeline
  (`checkGaze`, `getRatio`, `eyeContactScore`).

Modelling conventions: JavaScript numbers are embedded as `ℚ` (all arithmetic
in the relevant code paths is exact on rationals); `Int16Array` elements as `ℤ`
with explicit truncate-and-wrap conversion; `Date.now()` / `currentTime` are
explicit `ℚ` parameters; nullable object references become `Bool`/`Option`
presence flags; mutation becomes explicit state passing.  Comparisons of the
form `Math.sqrt e > c` (with `e ≥ 0`, `c > 0`) are embedded as the equivalent
exact comparison `e > c^2`, since real square roots do not exist on `ℚ`.
-/

/-- JavaScript `Math.round`: rounds half toward positive infinity. -/
def jsRound (q : ℚ) : ℤ := Int.floor (q + 1/2)

/-- JavaScript number-to-integer truncation (toward zero), as used by
`ToInt16` when assigning into an `Int16Array`. -/
def jsTrunc (q : ℚ) : ℤ := if q < 0 then Int.ceil q else Int.floor q

/-- Wrap an integer into the signed 16-bit range, as `Int16Array` storage does. -/
def toInt16 (n : ℤ) : ℤ := (n + 32768) % 65536 - 32768

/-- JavaScript `x.toFixed(1)` read back as a number: round to one decimal,
ties toward positive infinity (the spec's "pick the larger n"). -/
def toFixed1 (q : ℚ) : ℚ := (jsRound (10 * q) : ℚ) / 10

/-- Embedding of `s < 0 ? s * 0x8000 : s * 0x7fff` followed by storage into an
`Int16Array` slot (GeminiLiveClient.downsample, line 309). -/
def floatTo16 (s : ℚ) : ℤ :=
  toInt16 (jsTrunc (if s < 0 then s * 32768 else s * 32767))

/-- Sum of squares of a sample buffer (`sum += input[i] * input[i]`). -/
def sumSq (input : List ℚ) : ℚ := (input.map fun x => x * x).sum

/-- Mean square of a buffer (`sum / input.length`; `0` for the empty buffer,
agreeing with the JS `NaN` on every comparison the code performs). -/
def meanSq (input : List ℚ) : ℚ := sumSq input / (input.length : ℚ)

/-- GeminiLiveClient.downsample (geminiService.ts lines 303-312): nearest-sample
decimation from `inputRate` to `outputRate`.
`result[i] = floatTo16 (buffer[Math.floor(i * compression)])` with
`length = Math.floor(buffer.length / compression)`. -/
def downsample (buffer : List ℚ) (inputRate outputRate : ℚ) : List ℤ :=
  let compression := inputRate / outputRate
  let length := (Int.floor ((buffer.length : ℚ) / compression)).toNat
  (List.range length).map fun (i : ℕ) =>
    floatTo16 (buffer.getD (Int.floor ((i : ℚ) * compression)).toNat 0)

/-- State of a `GeminiLiveClient` instance.  Object references (`session`,
`ws`, `audioContext`, `inputProcessor`, `inputSource`) are modelled by
presence flags; `ws` is `some b` when a websocket object is present with
`readyState == OPEN` iff `b`; `audioContext` is `some rate` when an
`AudioContext` with that sample rate is held.  `sent` is the (ghost) log of
frames that reached `session.sendRealtimeInput`; `scheduled` is the (ghost)
log of `(startTime, duration)` pairs passed to `source.start`. -/
structure ClientState where
  isSessionOpen : Bool
  sessionSome : Bool
  ws : Option Bool
  audioContext : Option ℚ
  inputProcessorSome : Bool
  handlerSet : Bool
  inputSourceSome : Bool
  isSpeaking : Bool
  lastSpeechTime : ℚ
  nextStartTime : ℚ
  audioQueue : List (ℚ × ℚ)
  sent : List (List ℤ)
  scheduled : List (ℚ × ℚ)
  deriving Repr, DecidableEq

/-- Guard of GeminiLiveClient.safeSend (lines 148-157): a payload reaches
`session.sendRealtimeInput` iff the open flag is set, a session object exists,
and the websocket exists with `readyState == OPEN`. -/
def canSend (s : ClientState) : Bool :=
  s.isSessionOpen && s.sessionSome && s.ws == some true

/-- GeminiLiveClient.safeSend applied to one capture frame: appends the frame
to the transmission log exactly when the `canSend` guard passes. -/
def safeSend (s : ClientState) (frame : List ℤ) : ClientState :=
  if canSend s then { s with sent := s.sent ++ [frame] } else s

/-- The `onaudioprocess` capture-tick handler installed by
GeminiLiveClient.startAudioInput (lines 196-233).  A tick only runs while a
processor with a handler is installed; it returns at once unless the session
is open and present; otherwise it updates the VAD state, builds either a
decimated speech frame or the fixed 320-sample zero frame, and hands it to
`safeSend`.  In the speaking branch, `this.audioContext!.sampleRate` faults on
a missing context; the exception is caught by the surrounding `try`, after the
VAD fields were already mutated — the `none` case reproduces that. -/
def onaudioprocess (s : ClientState) (input : List ℚ) (now : ℚ) : ClientState :=
  if ¬ (s.inputProcessorSome && s.handlerSet) then s
  else if ¬ (s.isSessionOpen && s.sessionSome) then s
  else
    let loud : Bool := meanSq input > 1/2500
    let lastSpeechTime := if loud then now else s.lastSpeechTime
    let speaking0 := if loud then true else s.isSpeaking
    let speaking := if now - lastSpeechTime > 1200 then false else speaking0
    let s' := { s with isSpeaking := speaking, lastSpeechTime := lastSpeechTime }
    if speaking then
      match s.audioContext with
      | some rate => safeSend s' (downsample input rate 16000)
      | none => s'
    else
      safeSend s' (List.replicate 320 0)

/-- GeminiLiveClient.stopAudioInput (lines 239-250): clears the capture
handler and releases processor and source nodes. -/
def stopAudioInput (s : ClientState) : ClientState :=
  { s with handlerSet := false, inputProcessorSome := false,
           inputSourceSome := false }

/-- GeminiLiveClient.disconnect (lines 164-187): stops capture, flips the open
flag false, drops the session and websocket references, stops and clears every
queued playback source, and releases the audio context. -/
def disconnect (s : ClientState) : ClientState :=
  let s := stopAudioInput s
  { s with isSessionOpen := false, sessionSome := false, ws := none,
           audioQueue := [], audioContext := none }

/-- Run a sequence of capture ticks, each with its sample buffer and its
`Date.now()` value. -/
def runTicks (s : ClientState) (ticks : List (List ℚ × ℚ)) : ClientState :=
  ticks.foldl (fun st t => onaudioprocess st t.1 t.2) s

/-- GeminiLiveClient.queueAudio (lines 253-279) restricted to its scheduling
effect: with a decoded PCM fragment of `pcmLen` samples (duration
`pcmLen / 24000` at the 24 kHz output rate) and the playback clock reading
`clock`, the buffer is started at `max clock nextStartTime` and
`nextStartTime` advances past it.  Early-returns when no audio context is
held or the session is closed. -/
def queueAudio (s : ClientState) (clock : ℚ) (pcmLen : ℕ) : ClientState :=
  if s.audioContext = none ∨ ¬ s.isSessionOpen then s
  else
    let duration : ℚ := (pcmLen : ℚ) / 24000
    let start := if s.nextStartTime < clock then clock else s.nextStartTime
    { s with nextStartTime := start + duration,
             audioQueue := s.audioQueue ++ [(start, duration)],
             scheduled := s.scheduled ++ [(start, duration)] }

/-- Run a sequence of inbound audio fragments through `queueAudio`; each event
carries the playback-clock reading at scheduling time and the fragment's
sample count. -/
def runPlayback (s : ClientState) (events : List (ℚ × ℕ)) : ClientState :=
  events.foldl (fun st e => queueAudio st e.1 e.2) s

/-- Specification-side scheduler (spec §8): each buffer starts at
`max (clock at scheduling time) (previous buffer's end)`, the first one
measured against the initial `nextStartTime`. -/
def scheduleSpec (prevEnd : ℚ) : List (ℚ × ℕ) → List (ℚ × ℚ)
  | [] => []
  | (clock, pcmLen) :: rest =>
      let duration : ℚ := (pcmLen : ℚ) / 24000
      let start := max clock prevEnd
      (start, duration) :: scheduleSpec (start + duration) rest

/-- Metrics snapshot (types.ts `AnalysisMetrics`).  Fields produced through
`Math.round` are `ℤ`; fields produced through `toFixed(1)` are `ℚ`. -/
structure AnalysisMetrics where
  speechRate : ℤ
  pauseRatio : ℚ
  volumeStability : ℚ
  eyeContact : ℤ
  confidence : ℤ
  clarity : ℚ
  audioLevel : ℤ
  deriving Repr, DecidableEq

/-- Field-by-field rebuild of a metrics snapshot — the embedding of the spread
copy `{ ...analysisService.currentMetrics }` (geminiService.ts line 501). -/
def copyMetrics (m : AnalysisMetrics) : AnalysisMetrics :=
  { speechRate := m.speechRate, pauseRatio := m.pauseRatio,
    volumeStability := m.volumeStability, eyeContact := m.eyeContact,
    confidence := m.confidence, clarity := m.clarity,
    audioLevel := m.audioLevel }

/-- Arguments of a `save_assessment` tool call.  Absent fields are `none`
(JavaScript `undefined`). -/
structure ToolArgs where
  full_question_text : Option String
  question_topic : Option String
  user_answer_summary : Option String
  content_score : Option ℚ
  delivery_score : Option ℚ
  feedback : Option String
  strengths : Option (List String)
  areas_for_improvement : Option (List String)
  deriving Repr, DecidableEq

/-- First truthy string of a `||` chain over possibly-undefined strings, with
default `d`: `undefined` and the empty string are falsy. -/
def firstTruthy : List (Option String) → String → String
  | [], d => d
  | a :: rest, d =>
      match a with
      | some t => if t = "" then firstTruthy rest d else t
      | none => firstTruthy rest d

/-- JavaScript `a || b` for a possibly-undefined string `a`. -/
def jsOrStr (a : Option String) (b : String) : String := firstTruthy [a] b

/-- JavaScript `String.prototype.trim`: strip leading and trailing whitespace,
embedded over the string's character list (Lean's own `String.trim` is
byte-position based and does not reduce in the kernel). -/
def jsTrim (s : String) : String :=
  ⟨((s.data.dropWhile Char.isWhitespace).reverse.dropWhile Char.isWhitespace).reverse⟩

/-- JavaScript `Number(a) || d` for a possibly-undefined numeric field:
`undefined` yields `NaN` (falsy) and `0` is falsy, both giving `d`. -/
def numberOr (a : Option ℚ) (d : ℚ) : ℚ :=
  match a with
  | some v => if v = 0 then d else v
  | none => d

inductive Role where
  | ai
  | user
  deriving Repr, DecidableEq

/-- Transcript entry (types.ts `Message`). -/
structure Message where
  role : Role
  text : String
  timestamp : ℚ
  deriving Repr, DecidableEq

/-- Per-question assessment record (types.ts `QuestionAnalysis`). -/
structure QuestionAnalysis where
  questionId : ℕ
  questionText : String
  userAnswer : String
  metrics : AnalysisMetrics
  contentScore : ℚ
  deliveryScore : ℚ
  feedback : String
  strengths : List String
  weaknesses : List String
  deriving Repr, DecidableEq

inductive LiveConnectionState where
  | DISCONNECTED
  | CONNECTING
  | CONNECTED
  | ERROR
  deriving Repr, DecidableEq

/-- Orchestrator-visible state (types.ts `InterviewState`).  The `config`
field is reduced to the requested duration in minutes — the only configuration
field the orchestrator's control flow reads; the remaining fields (industry,
role, difficulty, document texts) only feed prompt strings. -/
structure InterviewState where
  connectionState : LiveConnectionState
  duration : ℚ
  transcript : List Message
  analyses : List QuestionAnalysis
  currentQuestionIndex : ℕ
  totalQuestions : ℕ
  currentQuestionText : String
  realtimeInputText : String
  realtimeOutputText : String
  deriving Repr, DecidableEq

/-- InterviewGraph instance state: the published `InterviewState` plus the two
scratch buffers, with ghost logs for outbound control messages, scheduled
wrap-up timers not yet fired, and completion-callback (`onEnd`) invocations. -/
structure GraphState where
  state : InterviewState
  aiTextBuffer : String
  userTranscriptBuffer : String
  controlMessages : List String
  pendingTimers : ℕ
  onEndCount : ℕ
  deriving Repr, DecidableEq

/-- Question budget from the requested duration (InterviewGraph constructor,
geminiService.ts lines 340-342): `10min ~ 3, 20min ~ 5, 30min ~ 7`. -/
def totalQs (duration : ℚ) : ℕ :=
  if duration ≥ 30 then 7 else if duration ≥ 20 then 5 else 3

/-- InterviewGraph constructor state (lines 337-354). -/
def initGraph (duration : ℚ) : GraphState :=
  { state := { connectionState := .DISCONNECTED, duration := duration,
               transcript := [], analyses := [],
               currentQuestionIndex := 0, totalQuestions := totalQs duration,
               currentQuestionText := "Waiting for interviewer...",
               realtimeInputText := "", realtimeOutputText := "" },
    aiTextBuffer := "", userTranscriptBuffer := "",
    controlMessages := [], pendingTimers := 0, onEndCount := 0 }

/-- The wrap-up control message issued when the question budget is reached
(line 393). -/
def wrapupMessage : String :=
  "We have reached the target number of questions. Please give a brief closing statement and say goodbye."

/-- InterviewGraph.handleAssessment (lines 497-535): snapshots the current
metrics by value, resolves the question text through the
`args.full_question_text || state.currentQuestionText || args.question_topic
|| "Interview Question"` truthiness chain, resolves the answer from the
trimmed candidate buffer else `args.user_answer_summary` else the no-response
marker, appends the assessment and the two transcript entries. -/
def handleAssessment (g : GraphState) (args : ToolArgs)
    (currentMetrics : AnalysisMetrics) (now : ℚ) : GraphState :=
  let metrics := copyMetrics currentMetrics
  let realQuestion :=
    firstTruthy [args.full_question_text, some g.state.currentQuestionText,
                 args.question_topic] "Interview Question"
  let rawUserAnswer :=
    if (jsTrim g.userTranscriptBuffer).length > 0 then jsTrim g.userTranscriptBuffer
    else jsOrStr args.user_answer_summary "(No audio response detected)"
  let newAnalysis : QuestionAnalysis :=
    { questionId := g.state.analyses.length + 1,
      questionText := realQuestion,
      userAnswer := rawUserAnswer,
      metrics := metrics,
      contentScore := numberOr args.content_score 5,
      deliveryScore := numberOr args.delivery_score 5,
      feedback := jsOrStr args.feedback "No feedback provided",
      strengths := args.strengths.getD [],
      weaknesses := args.areas_for_improvement.getD [] }
  { g with state :=
      { g.state with
        analyses := g.state.analyses ++ [newAnalysis],
        transcript := g.state.transcript ++
          [{ role := .ai, text := realQuestion, timestamp := now },
           { role := .user, text := rawUserAnswer, timestamp := now }] } }

/-- The orchestrator's `onToolCall` handler (lines 377-405): on
`save_assessment` it persists the assessment, clears both scratch buffers and
`realtimeInputText`, increments the question counter, and — once the counter
reaches the total — emits the wrap-up control message and schedules the
6-second termination timer.  Any other tool name is ignored. -/
def onToolCall (g : GraphState) (name : String) (args : ToolArgs)
    (currentMetrics : AnalysisMetrics) (now : ℚ) : GraphState :=
  if name = "save_assessment" then
    let g1 := handleAssessment g args currentMetrics now
    let g2 := { g1 with
      aiTextBuffer := "", userTranscriptBuffer := "",
      state := { g1.state with
        realtimeInputText := "",
        currentQuestionIndex := g1.state.currentQuestionIndex + 1 } }
    if g2.state.currentQuestionIndex ≥ g2.state.totalQuestions then
      { g2 with controlMessages := g2.controlMessages ++ [wrapupMessage],
                pendingTimers := g2.pendingTimers + 1 }
    else g2
  else g

/-- Firing one scheduled wrap-up timer (lines 396-402): `stopSession()` forces
the connection state to DISCONNECTED, then the completion callback `onEnd`
runs. -/
def fireWrapupTimer (g : GraphState) : GraphState :=
  if g.pendingTimers > 0 then
    { g with pendingTimers := g.pendingTimers - 1,
             state := { g.state with connectionState := .DISCONNECTED },
             onEndCount := g.onEndCount + 1 }
  else g

/-- The `onTranscript` event for an agent text fragment (lines 370-376):
append to the agent-question scratch buffer and mirror it into
`currentQuestionText`. -/
def onTranscriptAI (g : GraphState) (text : String) : GraphState :=
  let buf := g.aiTextBuffer ++ text
  { g with aiTextBuffer := buf,
           state := { g.state with currentQuestionText := buf } }

/-- One part of an inbound server message: an optional inline audio payload
(recorded by its decoded 16-bit sample count) and an optional text fragment. -/
structure ServerPart where
  inlineDataLen : Option ℕ
  text : Option String
  deriving Repr, DecidableEq

/-- Inbound server message: optional content parts and an optional tool call
carrying a list of (name, args) function calls. -/
structure ServerMessage where
  parts : Option (List ServerPart)
  toolCall : Option (List (String × ToolArgs))
  deriving Repr, DecidableEq

/-- GeminiLiveClient.safeHandleMessage (lines 129-145) wired to the
orchestrator's event handlers: drops everything while the open flag is clear;
otherwise queues each inline audio part for playback, forwards each text part
as partial agent speech, and runs the orchestrator's `onToolCall` for each
function call.  The third component is the list of tool acknowledgments sent
back to the remote agent during handling: the handler contains no
`sendToolResponse` call, so this list is always empty. -/
def safeHandleMessage (c : ClientState) (g : GraphState) (msg : ServerMessage)
    (currentMetrics : AnalysisMetrics) (clock now : ℚ) :
    ClientState × GraphState × List String :=
  if ¬ c.isSessionOpen then (c, g, [])
  else
    let cg : ClientState × GraphState :=
      match msg.parts with
      | some parts =>
          parts.foldl (fun (cg : ClientState × GraphState) (p : ServerPart) =>
            let c1 := match p.inlineDataLen with
              | some len => queueAudio cg.1 clock len
              | none => cg.1
            let g1 := match p.text with
              | some t => onTranscriptAI cg.2 t
              | none => cg.2
            (c1, g1)) (c, g)
      | none => (c, g)
    let g2 :=
      match msg.toolCall with
      | some calls =>
          calls.foldl (fun gs call =>
            onToolCall gs call.1 call.2 currentMetrics now) cg.2
      | none => cg.2
    (cg.1, g2, [])

/-- Rolling audio state of the AnalysisService (analysisService.ts lines
26-28): the timestamp of the last tick whose energy exceeded the speech
threshold, and the 500 ms (timestamp, isSpeech) window, oldest first.  The
`rmsValues` stability buffer (lines 150-153) and the log-compressed
`audioLevel` (lines 139-145) are not modelled: no claim mentions them and
their exact values require real square roots / logarithms. -/
structure AudioState where
  lastSpeechTimestamp : ℚ
  speechHistory : List (ℚ × Bool)
  deriving Repr, DecidableEq

/-- Initial audio state (`lastSpeechTimestamp = 0`, empty history). -/
def initAudioState : AudioState := { lastSpeechTimestamp := 0, speechHistory := [] }

/-- One iteration of AnalysisService.processAudioLoop (lines 155-171)
restricted to the speech-history bookkeeping: classify the tick
(`rms > 15`, embedded as mean square `> 225`), stamp `lastSpeechTimestamp`
on speech, push the (now, isSpeech) pair, and prune entries older than the
500 ms window from the front. -/
def processAudioTick (st : AudioState) (dataArray : List ℚ) (now : ℚ) : AudioState :=
  let isSpeech : Bool := meanSq dataArray > 225
  let last := if isSpeech then now else st.lastSpeechTimestamp
  let hist := st.speechHistory ++ [(now, isSpeech)]
  let hist := hist.dropWhile fun p => now - p.1 > 500
  { lastSpeechTimestamp := last, speechHistory := hist }

/-- AnalysisService.calculateAudioMetrics (lines 186-216) restricted to the
`(speechRate, pauseRatio)` pair (the `volumeStability` part, lines 178-185, is
untouched by any claim): when less than the 500 ms silence timeout has
elapsed since the last speech sample, derive a words-per-minute estimate from
the in-window speech fraction and set
`pauseRatio = toFixed1 ((1 - speechFraction) * 100)`; otherwise force
`speechRate = 0` and `pauseRatio = 100`. -/
def calculateAudioMetrics (st : AudioState) (now : ℚ) : ℤ × ℚ :=
  let timeSinceSpeech := now - st.lastSpeechTimestamp
  if timeSinceSpeech < 500 then
    let totalFrames := st.speechHistory.length
    let speechFrames := (st.speechHistory.filter fun p => p.2).length
    let windowSeconds : ℚ := if totalFrames > 0 then (totalFrames : ℚ) / 60 else 1/2
    let activeSeconds : ℚ := (speechFrames : ℚ) / 60
    let estimatedWords := activeSeconds * (5/2)
    let wpm := if windowSeconds > 0 then estimatedWords * 60 / windowSeconds else 0
    let ratio :=
      if totalFrames > 0 then toFixed1 ((1 - (speechFrames : ℚ) / (totalFrames : ℚ)) * 100)
      else 0
    (jsRound wpm, ratio)
  else (0, 100)

/-- Run a sequence of audio ticks, each carrying its frequency-data buffer and
its `Date.now()` reading, from the initial state. -/
def runAudioTicks (ticks : List (List ℚ × ℚ)) : AudioState :=
  ticks.foldl (fun st t => processAudioTick st t.1 t.2) initAudioState

/-- A normalized 2-D facial landmark. -/
structure Landmark where
  x : ℚ
  y : ℚ
  deriving Repr, DecidableEq

/-- The `getRatio` closure inside AnalysisService.checkGaze (lines 281-285):
normalized horizontal iris position between the eye corners, defined as `0.5`
when the corners coincide horizontally (zero eye width). -/
def getRatio (inner outer iris : Landmark) : ℚ :=
  let eyeWidth := |outer.x - inner.x|
  let irisPos := |iris.x - inner.x|
  if eyeWidth > 0 then irisPos / eyeWidth else 1/2

/-- AnalysisService.checkGaze (lines 272-296) over the landmark array
(modelled as a total index function, per the FaceMesh contract that all 478
refined landmarks are present): head-yaw gate on the nose landmark, then the
per-eye iris-ratio band test. -/
def checkGaze (lm : ℕ → Landmark) : Bool :=
  let nose := lm 1
  if nose.x < 2/5 ∨ nose.x > 3/5 then false
  else
    let rightEyeRatio := getRatio (lm 33) (lm 133) (lm 468)
    let leftEyeRatio := getRatio (lm 362) (lm 263) (lm 473)
    (rightEyeRatio > 2/5 && rightEyeRatio < 3/5) &&
    (leftEyeRatio > 2/5 && leftEyeRatio < 3/5)

/-- The gaze-history push of AnalysisService.onFaceResults (lines 226-227):
append the frame's classification and drop the oldest entry beyond 20. -/
def pushGaze (h : List Bool) (b : Bool) : List Bool :=
  let h' := h ++ [b]
  if h'.length > 20 then h'.tail else h'

/-- The eye-contact computation of AnalysisService.onFaceResults (lines
228-237): the looking fraction as a percentage, multiplied once more by the
fraction when it is below the 0.75 threshold, then `Math.round`ed. -/
def eyeContactScore (gazeHistory : List Bool) : ℤ :=
  let lookingCount := (gazeHistory.filter id).length
  let total := gazeHistory.length
  let frac : ℚ := (lookingCount : ℚ) / (total : ℚ)
  let score : ℚ := frac * 100
  let score := if frac < 3/4 then score * frac else score
  jsRound score

/-- A fully connected, capturing client: open flag set, session and websocket
(readyState OPEN) present, a 24 kHz audio context held, capture nodes
installed — the state reached by `connect` + `startAudioInput`. -/
def sampleOpenClient : ClientState :=
  { isSessionOpen := true, sessionSome := true, ws := some true,
    audioContext := some 24000, inputProcessorSome := true,
    handlerSet := true, inputSourceSome := true, isSpeaking := false,
    lastSpeechTime := 0, nextStartTime := 0, audioQueue := [],
    sent := [], scheduled := [] }

/-- A capture tick on a client whose handler has been cleared, or whose
open-session flag is false, is a no-op. -/
theorem onaudioprocess_inactive (s : ClientState) (input : List ℚ) (now : ℚ)
    (h : s.handlerSet = false ∨ s.isSessionOpen = false) :
    onaudioprocess s input now = s := by
  rcases h with h | h <;> simp [onaudioprocess, h]

/-- Any sequence of capture ticks on a handler-cleared or closed client leaves
the state unchanged. -/
theorem runTicks_inactive (s : ClientState) (ticks : List (List ℚ × ℚ))
    (h : s.handlerSet = false ∨ s.isSessionOpen = false) :
    runTicks s ticks = s := by
  induction ticks with
  | nil => rfl
  | cons t ts ih =>
      show runTicks (onaudioprocess s t.1 t.2) ts = s
      rw [onaudioprocess_inactive s t.1 t.2 h, ih]

/-- C1: once `disconnect()` (or `stopAudioInput()`) has been called, no later
capture tick reaches the transmit path: the transmitted-frame log — hence its
length — stays constant over every subsequent tick sequence, and every send is
gated on the open-session flag that `disconnect` clears (a tick on any client
whose `isSessionOpen` flag is false leaves the `sent` log unchanged). -/
theorem no_transmit_after_disconnect (s : ClientState) (ticks : List (List ℚ × ℚ)) :
    (runTicks (disconnect s) ticks).sent.length = (disconnect s).sent.length ∧
    (runTicks (stopAudioInput s) ticks).sent.length = (stopAudioInput s).sent.length ∧
    (disconnect s).isSessionOpen = false ∧
    (∀ s' : ClientState, s'.isSessionOpen = false →
      ∀ input now, (onaudioprocess s' input now).sent = s'.sent) := by
  refine ⟨?_, ?_, ?_, ?_⟩
  · rw [runTicks_inactive _ _ (Or.inl rfl)]
  · rw [runTicks_inactive _ _ (Or.inl rfl)]
  · rfl
  · intro s' h input now
    rw [onaudioprocess_inactive s' input now (Or.inr h)]

/-- Witness for C1 at a concrete closed client and tick sequence. -/
theorem no_transmit_after_disconnect_witness :
    (runTicks (disconnect sampleOpenClient) [([1], 100), ([0], 1500)]).sent.length
      = (disconnect sampleOpenClient).sent.length ∧
    (onaudioprocess { sampleOpenClient with isSessionOpen := false } [1, 1] 300).sent
      = ({ sampleOpenClient with isSessionOpen := false } : ClientState).sent :=
  ⟨(no_transmit_after_disconnect sampleOpenClient [([1], 100), ([0], 1500)]).1,
   (no_transmit_after_disconnect sampleOpenClient []).2.2.2
     { sampleOpenClient with isSessionOpen := false } rfl [1, 1] 300⟩

/-- C9: `disconnect()` is idempotent — a second call produces exactly the same
state — and from any starting state it leaves the client fully closed: open
flag false, session and websocket dropped, playback queue empty, audio context
released, capture nodes released. -/
theorem disconnect_idempotent (s : ClientState) :
    disconnect (disconnect s) = disconnect s ∧
    (disconnect s).isSessionOpen = false ∧
    (disconnect s).sessionSome = false ∧
    (disconnect s).ws = none ∧
    (disconnect s).audioQueue = [] ∧
    (disconnect s).audioContext = none ∧
    (disconnect s).handlerSet = false ∧
    (disconnect s).inputProcessorSome = false ∧
    (disconnect s).inputSourceSome = false := by
  refine ⟨rfl, rfl, rfl, rfl, rfl, rfl, rfl, rfl, rfl⟩

/-- Head of a `scheduleSpec` schedule starts no earlier than the incoming
previous-end bound. -/
theorem scheduleSpec_head_ge (p : ℚ) (evs : List (ℚ × ℕ)) :
    ∀ x ∈ (scheduleSpec p evs).head?, p ≤ x.1 := by
  cases evs with
  | nil => intro x hx; simp [scheduleSpec] at hx
  | cons e rest =>
      intro x hx
      simp [scheduleSpec] at hx
      subst hx
      exact le_max_right _ _

/-- The spec-side schedule is non-overlapping and gapless-ordered: every
buffer starts no earlier than the previous buffer's end. -/
theorem scheduleSpec_chain (p : ℚ) (evs : List (ℚ × ℕ)) :
    List.Chain' (fun a b : ℚ × ℚ => a.1 + a.2 ≤ b.1) (scheduleSpec p evs) := by
  induction evs generalizing p with
  | nil => simp [scheduleSpec]
  | cons e rest ih =>
      refine List.chain'_cons'.mpr ⟨?_, ih _⟩
      intro y hy
      exact scheduleSpec_head_ge _ _ y hy

/-- The client's playback scheduling refines the spec-side scheduler: over any
event sequence on an open client with a live audio context, the log of
`(startTime, duration)` pairs handed to `source.start` is exactly
`scheduleSpec` seeded with the initial `nextStartTime`. -/
theorem runPlayback_scheduled (s : ClientState) (events : List (ℚ × ℕ))
    (hopen : s.isSessionOpen = true) (hctx : s.audioContext ≠ none) :
    (runPlayback s events).scheduled = s.scheduled ++ scheduleSpec s.nextStartTime events := by
  induction events generalizing s with
  | nil => simp [runPlayback, scheduleSpec]
  | cons e rest ih =>
      have hstep : queueAudio s e.1 e.2 =
          { s with nextStartTime := max e.1 s.nextStartTime + (e.2 : ℚ) / 24000,
                   audioQueue := s.audioQueue ++ [(max e.1 s.nextStartTime, (e.2 : ℚ) / 24000)],
                   scheduled := s.scheduled ++ [(max e.1 s.nextStartTime, (e.2 : ℚ) / 24000)] } := by
        have hmax : (if s.nextStartTime < e.1 then e.1 else s.nextStartTime) = max e.1 s.nextStartTime := by
          rcases lt_or_le s.nextStartTime e.1 with h | h
          · simp [h, max_eq_left h.le]
          · simp [not_lt.mpr h, max_eq_right h]
        simp [queueAudio, hctx, hopen, hmax]
      show (runPlayback (queueAudio s e.1 e.2) rest).scheduled = _
      rw [hstep, ih _ (by simpa using hopen) (by simpa using hctx)]
      cases e with
      | mk clock len =>
          simp [scheduleSpec, List.append_assoc]

/-- C4: playback scheduling is gapless and non-overlapping.  Over any sequence
of inbound audio fragments on an open client, each scheduled buffer starts at
`max (playback clock at scheduling time) (previous buffer's end)` — the
refinement to `scheduleSpec` — and consecutively scheduled buffers satisfy
`start[i+1] ≥ start[i] + duration[i]`. -/
theorem queueAudio_gapless (s : ClientState) (events : List (ℚ × ℕ))
    (hopen : s.isSessionOpen = true) (hctx : s.audioContext ≠ none) :
    (runPlayback s events).scheduled = s.scheduled ++ scheduleSpec s.nextStartTime events ∧
    List.Chain' (fun a b : ℚ × ℚ => a.1 + a.2 ≤ b.1) ((runPlayback s events).scheduled.drop s.scheduled.length) := by
  have h := runPlayback_scheduled s events hopen hctx
  refine ⟨h, ?_⟩
  rw [h, List.drop_left]
  exact scheduleSpec_chain _ _

/-- Witness for C4: three fragments, the middle one arriving with a lagging
clock, the third with a leading clock. -/
theorem queueAudio_gapless_witness :
    (runPlayback sampleOpenClient [(0, 2400), (1/100, 4800), (1, 1200)]).scheduled =
      sampleOpenClient.scheduled ++ scheduleSpec sampleOpenClient.nextStartTime [(0, 2400), (1/100, 4800), (1, 1200)] ∧
    List.Chain' (fun a b : ℚ × ℚ => a.1 + a.2 ≤ b.1)
      ((runPlayback sampleOpenClient [(0, 2400), (1/100, 4800), (1, 1200)]).scheduled.drop sampleOpenClient.scheduled.length) :=
  queueAudio_gapless sampleOpenClient [(0, 2400), (1/100, 4800), (1, 1200)] rfl (by decide)

/-- `safeSend` appends the frame when its guard passes. -/
theorem safeSend_sent (s : ClientState) (f : List ℤ) (h : canSend s = true) :
    (safeSend s f).sent = s.sent ++ [f] := by
  simp [safeSend, h]

/-- `safeSend` never changes the VAD classification. -/
theorem safeSend_isSpeaking (s : ClientState) (f : List ℤ) :
    (safeSend s f).isSpeaking = s.isSpeaking := by
  unfold safeSend
  split <;> rfl

/-- Normal form of a capture tick on a fully connected capturing client: the
VAD state advances, and exactly one frame is transmitted — the decimated
capture while classified speaking, the fixed 320-sample zero frame while
silent. -/
theorem onaudioprocess_open (s : ClientState) (input : List ℚ) (now rate : ℚ)
    (hp : s.inputProcessorSome = true) (hh : s.handlerSet = true)
    (ho : s.isSessionOpen = true) (hs : s.sessionSome = true)
    (hw : s.ws = some true) (hc : s.audioContext = some rate) :
    onaudioprocess s input now =
      (let loud : Bool := meanSq input > 1/2500
       let lastSpeechTime := if loud then now else s.lastSpeechTime
       let speaking : Bool :=
         if now - lastSpeechTime > 1200 then false else (if loud then true else s.isSpeaking)
       { s with isSpeaking := speaking, lastSpeechTime := lastSpeechTime,
                sent := s.sent ++
                  [if speaking then downsample input rate 16000 else List.replicate 320 0] }) := by
  simp only [onaudioprocess, hp, hh, ho, hs, hc, Bool.and_self, eq_self_iff_true, not_true,
             ite_false, ite_true, safeSend, canSend, hw, beq_self_eq_true, Bool.and_true,
             Bool.true_and]
  split <;> split <;> rename_i hsp <;>
    solve
      | simp [hsp]
      | cases hx : s.isSpeaking <;> simp [hsp, hx]

/-- C3 (amended): on a connected capturing client, a capture tick classified
"speaking" transmits the captured frame decimated to 16 kHz by nearest-sample
selection — `⌊len·16000/rate⌋` output samples, the `i`-th taken from input
index `⌊i·rate/16000⌋` — while a tick classified "silent" transmits the fixed
320-sample zero frame (20 ms at 16 kHz), independent of the captured frame's
duration. -/
theorem vad_transmission (s : ClientState) (input : List ℚ) (now rate : ℚ)
    (hp : s.inputProcessorSome = true) (hh : s.handlerSet = true)
    (ho : s.isSessionOpen = true) (hs : s.sessionSome = true)
    (hw : s.ws = some true) (hc : s.audioContext = some rate) :
    ((onaudioprocess s input now).isSpeaking = true →
      (onaudioprocess s input now).sent = s.sent ++ [downsample input rate 16000]) ∧
    ((onaudioprocess s input now).isSpeaking = false →
      (onaudioprocess s input now).sent = s.sent ++ [List.replicate 320 0]) ∧
    (downsample input rate 16000).length =
      (Int.floor ((input.length : ℚ) * 16000 / rate)).toNat ∧
    ∀ i : ℕ, i < (downsample input rate 16000).length →
      (downsample input rate 16000).getD i 0 =
        floatTo16 (input.getD (Int.floor ((i : ℚ) * (rate / 16000))).toNat 0) := by
  rw [onaudioprocess_open s input now rate hp hh ho hs hw hc]
  refine ⟨fun h => ?_, fun h => ?_, ?_, ?_⟩
  · simp only at h ⊢
    rw [if_pos h]
  · simp only at h ⊢
    rw [if_neg (by simp only [h]; exact Bool.false_ne_true)]
  · simp only [downsample, List.length_map, List.length_range]
    rw [div_div_eq_mul_div]
  · intro i hi
    simp only [downsample, List.length_map, List.length_range] at hi ⊢
    rw [List.getD_eq_getElem _ _ (by simpa using hi)]
    simp

/-- Witness for C3 (amended) at a loud 3-sample tick (speech path) and at a
silent tick past the hangover interval (zero-frame path), both on the app's
24 kHz capture context. -/
theorem vad_transmission_witness :
    (onaudioprocess sampleOpenClient [1, 1, 1] 0).sent =
      sampleOpenClient.sent ++ [downsample [1, 1, 1] 24000 16000] ∧
    (onaudioprocess sampleOpenClient [0, 0, 0] 2000).sent =
      sampleOpenClient.sent ++ [List.replicate 320 0] :=
  ⟨(vad_transmission sampleOpenClient [1, 1, 1] 0 24000
      rfl rfl rfl rfl rfl rfl).1
      (by rw [onaudioprocess_open sampleOpenClient [1, 1, 1] 0 24000 rfl rfl rfl rfl rfl rfl]
          norm_num [meanSq, sumSq]),
   (vad_transmission sampleOpenClient [0, 0, 0] 2000 24000
      rfl rfl rfl rfl rfl rfl).2.1
      (by rw [onaudioprocess_open sampleOpenClient [0, 0, 0] 2000 24000 rfl rfl rfl rfl rfl rfl]
          norm_num [meanSq, sumSq, sampleOpenClient])⟩

/-- C3 counterexample: on the 24 kHz capture context with the standard
4096-sample capture buffer, a silent tick transmits the fixed 320-sample zero
frame (20 ms at 16 kHz), not a frame of duration equivalent to the captured
one: the decimated frame for the same capture would have 2730 samples, and
320/16000 s differs from 4096/24000 s. -/
theorem silent_frame_fixed_length :
    (onaudioprocess sampleOpenClient (List.replicate 4096 0) 2000).sent
      = [List.replicate 320 0] ∧
    (downsample (List.replicate 4096 0) 24000 16000).length = 2730 ∧
    (320 : ℕ) ≠ 2730 ∧
    (320 : ℚ) / 16000 ≠ (4096 : ℚ) / 24000 := by
  have h0 : meanSq (List.replicate 4096 (0 : ℚ)) = 0 := by
    rw [meanSq, sumSq, List.map_replicate]
    rw [show (0 : ℚ) * 0 = 0 from by norm_num]
    rw [List.sum_replicate, smul_zero, zero_div]
  refine ⟨?_, ?_, by norm_num, by norm_num⟩
  · rw [onaudioprocess_open sampleOpenClient _ 2000 24000 rfl rfl rfl rfl rfl rfl]
    have hq : ¬ ((1 : ℚ)/2500 < meanSq (List.replicate 4096 (0 : ℚ))) := by
      rw [h0]; norm_num
    simp only [sampleOpenClient, gt_iff_lt, hq, decide_False, Bool.false_eq_true,
               ite_false, ite_self, List.nil_append]
  · unfold downsample
    rw [List.length_map, List.length_range, List.length_replicate]
    rw [show ((4096 : ℕ) : ℚ) / ((24000 : ℚ) / 16000) = 8192 / 3 by norm_num]
    rw [show Int.floor ((8192 : ℚ) / 3) = 2730 from by
      rw [Int.floor_eq_iff]; norm_num]
    rfl

/-- C8: the eye-contact score over any 20-frame gaze history with exactly 10
"looking" frames is 25 (the 50 % looking fraction lies under the 75 %
threshold, so the 50 base score is multiplied by 0.5), not 50; in general the
score is `Math.round` of `lookingFraction · 100`, multiplied once more by the
looking fraction whenever that fraction is below 3/4. -/
theorem eyeContact_penalty (h : List Bool) (hlen : h.length = 20)
    (hlook : (h.filter id).length = 10) :
    eyeContactScore h = 25 ∧ eyeContactScore h ≠ 50 ∧
    ∀ h' : List Bool, h' ≠ [] →
      eyeContactScore h' =
        jsRound (((h'.filter id).length : ℚ) / (h'.length : ℚ) * 100 *
          (if ((h'.filter id).length : ℚ) / (h'.length : ℚ) < 3/4 then
            ((h'.filter id).length : ℚ) / (h'.length : ℚ) else 1)) := by
  have h25 : eyeContactScore h = 25 := by
    simp only [eyeContactScore, hlen, hlook]
    norm_num [jsRound]
  refine ⟨h25, by rw [h25]; decide, ?_⟩
  intro h' hne
  simp only [eyeContactScore]
  split
  · ring_nf
  · ring_nf

/-- Witness for C8 at the concrete history of 10 looking frames followed by
10 non-looking frames. -/
theorem eyeContact_penalty_witness :
    eyeContactScore (List.replicate 10 true ++ List.replicate 10 false) = 25 ∧
    eyeContactScore (List.replicate 10 true ++ List.replicate 10 false) ≠ 50 :=
  ⟨(eyeContact_penalty _ (by decide) (by decide)).1,
   (eyeContact_penalty _ (by decide) (by decide)).2.1⟩

/-- C10: gaze classification is total on degenerate landmark input: when an
eye's inner and outer corner landmarks have equal horizontal coordinates, the
iris-position ratio is defined as 0.5 rather than a division by zero, 0.5 lies
strictly inside the (0.4, 0.6) centered band, and a frame with a centered nose
and both eyes degenerate is classified as looking. -/
theorem checkGaze_degenerate (inner outer iris : Landmark) (h : outer.x = inner.x) :
    getRatio inner outer iris = 1/2 ∧
    (2/5 : ℚ) < getRatio inner outer iris ∧ getRatio inner outer iris < 3/5 ∧
    ∀ lm : ℕ → Landmark, (lm 1).x = 1/2 →
      (lm 133).x = (lm 33).x → (lm 263).x = (lm 362).x → checkGaze lm = true := by
  have hr : ∀ a b : Landmark, b.x = a.x → ∀ c, getRatio a b c = 1/2 := by
    intro a b hab c
    simp [getRatio, hab]
  have h12 := hr inner outer h iris
  refine ⟨h12, by rw [h12]; norm_num, by rw [h12]; norm_num, ?_⟩
  intro lm h1 h2 h3
  have hra := hr (lm 33) (lm 133) h2 (lm 468)
  have hrb := hr (lm 362) (lm 263) h3 (lm 473)
  simp only [checkGaze, h1, hra, hrb]
  norm_num

/-- Witness for C10 at concrete degenerate landmarks. -/
theorem checkGaze_degenerate_witness :
    getRatio ⟨0, 0⟩ ⟨0, 1⟩ ⟨1, 0⟩ = 1/2 ∧
    checkGaze (fun _ => ⟨1/2, 0⟩) = true :=
  ⟨(checkGaze_degenerate ⟨0, 0⟩ ⟨0, 1⟩ ⟨1, 0⟩ rfl).1,
   (checkGaze_degenerate ⟨0, 0⟩ ⟨0, 1⟩ ⟨1, 0⟩ rfl).2.2.2 (fun _ => ⟨1/2, 0⟩) rfl rfl rfl⟩

/-- Run a sequence of `save_assessment` tool calls, each with its arguments,
the metrics snapshot current at call time, and its `Date.now()` reading. -/
def runToolCalls (g : GraphState) (calls : List (ToolArgs × AnalysisMetrics × ℚ)) : GraphState :=
  calls.foldl (fun gs c => onToolCall gs "save_assessment" c.1 c.2.1 c.2.2) g

/-- C5: a 10-minute configuration yields a budget of 3 questions (with the
duration breakpoints: below 20 minutes 3 questions, from 20 minutes 5, from
30 minutes 7); after exactly 3 `save_assessment` tool calls the orchestrator
has emitted the wrap-up control message exactly once (and none earlier),
holds an assessment log of length 3 and a transcript log of length 6, and has
exactly one termination timer scheduled, whose firing (after the grace delay)
invokes the completion callback exactly once. -/
theorem ten_minute_session (a1 a2 a3 : ToolArgs) (m1 m2 m3 : AnalysisMetrics)
    (t1 t2 t3 : ℚ) :
    totalQs 10 = 3 ∧
    (∀ d : ℚ, (30 ≤ d → totalQs d = 7) ∧ (20 ≤ d → d < 30 → totalQs d = 5) ∧
      (d < 20 → totalQs d = 3)) ∧
    (runToolCalls (initGraph 10) [(a1, m1, t1), (a2, m2, t2)]).controlMessages = [] ∧
    (runToolCalls (initGraph 10) [(a1, m1, t1), (a2, m2, t2)]).pendingTimers = 0 ∧
    ((runToolCalls (initGraph 10) [(a1, m1, t1), (a2, m2, t2), (a3, m3, t3)]).state.analyses.length = 3 ∧
     (runToolCalls (initGraph 10) [(a1, m1, t1), (a2, m2, t2), (a3, m3, t3)]).state.transcript.length = 6 ∧
     (runToolCalls (initGraph 10) [(a1, m1, t1), (a2, m2, t2), (a3, m3, t3)]).controlMessages = [wrapupMessage] ∧
     (runToolCalls (initGraph 10) [(a1, m1, t1), (a2, m2, t2), (a3, m3, t3)]).pendingTimers = 1 ∧
     (runToolCalls (initGraph 10) [(a1, m1, t1), (a2, m2, t2), (a3, m3, t3)]).onEndCount = 0 ∧
     (fireWrapupTimer (runToolCalls (initGraph 10) [(a1, m1, t1), (a2, m2, t2), (a3, m3, t3)])).onEndCount = 1 ∧
     (fireWrapupTimer (runToolCalls (initGraph 10) [(a1, m1, t1), (a2, m2, t2), (a3, m3, t3)])).pendingTimers = 0) := by
  have htq : totalQs 10 = 3 := by norm_num [totalQs]
  have htrim : (jsTrim "").length = 0 := rfl
  refine ⟨htq, ?_, ?_, ?_, ?_⟩
  · intro d
    refine ⟨fun h => ?_, fun h1 h2 => ?_, fun h => ?_⟩
    · simp [totalQs, h]
    · have hn : ¬ (30 : ℚ) ≤ d := by linarith
      simp [totalQs, hn, h1]
    · have hn1 : ¬ (30 : ℚ) ≤ d := by linarith
      have hn2 : ¬ (20 : ℚ) ≤ d := by linarith
      simp [totalQs, hn1, hn2]
  · simp [runToolCalls, onToolCall, handleAssessment, initGraph, htq, htrim]
  · simp [runToolCalls, onToolCall, handleAssessment, initGraph, htq, htrim]
  · refine ⟨?_, ?_, ?_, ?_, ?_, ?_, ?_⟩ <;>
      simp [runToolCalls, onToolCall, handleAssessment, initGraph, htq, htrim, fireWrapupTimer]

/-- The initial metrics snapshot (analysisService.ts lines 37-44). -/
def initialMetrics : AnalysisMetrics :=
  { speechRate := 0, pauseRatio := 0, volumeStability := 10, eyeContact := 100,
    confidence := 100, clarity := 8, audioLevel := 0 }

/-- A `save_assessment` call carrying no arguments at all. -/
def emptyArgs : ToolArgs :=
  { full_question_text := none, question_topic := none, user_answer_summary := none,
    content_score := none, delivery_score := none, feedback := none,
    strengths := none, areas_for_improvement := none }

/-- Witness for C5 at three argument-less tool calls on a 10-minute session,
with the duration breakpoints checked at 30 and 20 minutes. -/
theorem ten_minute_session_witness :
    totalQs 10 = 3 ∧ totalQs 30 = 7 ∧ totalQs 20 = 5 ∧
    (runToolCalls (initGraph 10)
      [(emptyArgs, initialMetrics, 0), (emptyArgs, initialMetrics, 1),
       (emptyArgs, initialMetrics, 2)]).state.analyses.length = 3 := by
  have h := ten_minute_session emptyArgs emptyArgs emptyArgs
    initialMetrics initialMetrics initialMetrics 0 1 2
  exact ⟨h.1, (h.2.1 30).1 (by norm_num), (h.2.1 20).2.1 (by norm_num) (by norm_num),
         h.2.2.2.2.1⟩

/-- A `save_assessment` call carrying only a topic label. -/
def topicOnlyArgs : ToolArgs := { emptyArgs with question_topic := some "Leadership" }

/-- An orchestrator state whose current-question buffer is empty (as after a
buffer reset followed by an empty transcript fragment). -/
def emptyQuestionGraph : GraphState :=
  { initGraph 10 with state := { (initGraph 10).state with currentQuestionText := "" } }

/-- Claim-side question-text rule (C6 as stated): the tool-supplied question
text, else the question scratch buffer, else the generic placeholder — with no
topic-label fallback between buffer and placeholder. -/
def claimQuestionText (args : ToolArgs) (buffer : String) : String :=
  firstTruthy [args.full_question_text, some buffer] "Interview Question"

/-- C6 counterexample: with an empty current-question buffer and a tool call
carrying only a topic label, `handleAssessment` stores the tool-supplied topic
label as the question text, while the claim's three-level priority chain
produces the generic placeholder instead. -/
theorem question_topic_fallback :
    ((handleAssessment emptyQuestionGraph topicOnlyArgs initialMetrics 0).state.analyses.map
        fun a => a.questionText) = ["Leadership"] ∧
    claimQuestionText topicOnlyArgs "" = "Interview Question" ∧
    ("Leadership" : String) ≠ "Interview Question" := by
  refine ⟨rfl, rfl, by decide⟩

/-- Every `save_assessment` handling appends exactly one assessment record. -/
theorem handleAssessment_analyses (g : GraphState) (args : ToolArgs)
    (m : AnalysisMetrics) (now : ℚ) :
    ∃ qa, (handleAssessment g args m now).state.analyses = g.state.analyses ++ [qa] :=
  ⟨_, rfl⟩

/-- C6 (amended): on every `save_assessment` call, exactly one assessment is
appended; its question text follows the four-level truthiness chain
tool-supplied full question text → current-question buffer → tool-supplied
topic label → generic placeholder (the claim omitted the topic-label level);
its answer follows trimmed candidate buffer → tool-supplied paraphrase →
no-response marker; and its metrics field is a by-value copy of the snapshot
current at call time, unaffected by any later call's snapshot. -/
theorem handleAssessment_priority (g : GraphState) (args : ToolArgs)
    (m : AnalysisMetrics) (now : ℚ) :
    ∃ qa : QuestionAnalysis,
      (handleAssessment g args m now).state.analyses = g.state.analyses ++ [qa] ∧
      (∀ t, args.full_question_text = some t → t ≠ "" → qa.questionText = t) ∧
      ((args.full_question_text = none ∨ args.full_question_text = some "") →
        g.state.currentQuestionText ≠ "" →
        qa.questionText = g.state.currentQuestionText) ∧
      ((args.full_question_text = none ∨ args.full_question_text = some "") →
        g.state.currentQuestionText = "" →
        ∀ t, args.question_topic = some t → t ≠ "" → qa.questionText = t) ∧
      ((args.full_question_text = none ∨ args.full_question_text = some "") →
        g.state.currentQuestionText = "" →
        (args.question_topic = none ∨ args.question_topic = some "") →
        qa.questionText = "Interview Question") ∧
      ((jsTrim g.userTranscriptBuffer).length > 0 →
        qa.userAnswer = jsTrim g.userTranscriptBuffer) ∧
      (¬ (jsTrim g.userTranscriptBuffer).length > 0 →
        ∀ t, args.user_answer_summary = some t → t ≠ "" → qa.userAnswer = t) ∧
      (¬ (jsTrim g.userTranscriptBuffer).length > 0 →
        (args.user_answer_summary = none ∨ args.user_answer_summary = some "") →
        qa.userAnswer = "(No audio response detected)") ∧
      qa.metrics = copyMetrics m ∧ copyMetrics m = m ∧
      (∀ args2 m2 now2,
        (handleAssessment (handleAssessment g args m now) args2 m2 now2).state.analyses.get?
          g.state.analyses.length = some qa) := by
  refine ⟨_, rfl, ?_, ?_, ?_, ?_, ?_, ?_, ?_, rfl, rfl, ?_⟩
  · intro t ht hne
    show firstTruthy [args.full_question_text, some g.state.currentQuestionText,
      args.question_topic] "Interview Question" = t
    simp [firstTruthy, ht, hne]
  · intro hft hbuf
    show firstTruthy [args.full_question_text, some g.state.currentQuestionText,
      args.question_topic] "Interview Question" = g.state.currentQuestionText
    rcases hft with h | h <;> simp [firstTruthy, h, hbuf]
  · intro hft hbuf t ht hne
    show firstTruthy [args.full_question_text, some g.state.currentQuestionText,
      args.question_topic] "Interview Question" = t
    rcases hft with h | h <;> simp [firstTruthy, h, hbuf, ht, hne]
  · intro hft hbuf htp
    show firstTruthy [args.full_question_text, some g.state.currentQuestionText,
      args.question_topic] "Interview Question" = "Interview Question"
    rcases hft with h | h <;> rcases htp with h2 | h2 <;>
      simp [firstTruthy, h, hbuf, h2]
  · intro hlen
    show (if (jsTrim g.userTranscriptBuffer).length > 0 then jsTrim g.userTranscriptBuffer
      else jsOrStr args.user_answer_summary "(No audio response detected)") =
      jsTrim g.userTranscriptBuffer
    rw [if_pos hlen]
  · intro hlen t ht hne
    show (if (jsTrim g.userTranscriptBuffer).length > 0 then jsTrim g.userTranscriptBuffer
      else jsOrStr args.user_answer_summary "(No audio response detected)") = t
    rw [if_neg hlen]
    simp [jsOrStr, firstTruthy, ht, hne]
  · intro hlen hsum
    show (if (jsTrim g.userTranscriptBuffer).length > 0 then jsTrim g.userTranscriptBuffer
      else jsOrStr args.user_answer_summary "(No audio response detected)") =
      "(No audio response detected)"
    rw [if_neg hlen]
    rcases hsum with h | h <;> simp [jsOrStr, firstTruthy, h]
  · intro args2 m2 now2
    obtain ⟨qa2, h2⟩ := handleAssessment_analyses (handleAssessment g args m now) args2 m2 now2
    rw [h2]
    rw [show (handleAssessment g args m now).state.analyses =
      g.state.analyses ++ [_] from rfl]
    rw [List.append_assoc]
    rw [List.get?_append_right (le_refl _)]
    simp

/-- The last-speech timestamp after any run of audio ticks is either unchanged
from the starting state or the timestamp of some above-threshold tick. -/
theorem lastSpeech_cases (st : AudioState) (tr : List (List ℚ × ℚ)) :
    (tr.foldl (fun s t => processAudioTick s t.1 t.2) st).lastSpeechTimestamp
      = st.lastSpeechTimestamp ∨
    ∃ p ∈ tr, meanSq p.1 > 225 ∧
      (tr.foldl (fun s t => processAudioTick s t.1 t.2) st).lastSpeechTimestamp = p.2 := by
  induction tr generalizing st with
  | nil => exact Or.inl rfl
  | cons t ts ih =>
      rcases ih (processAudioTick st t.1 t.2) with h | ⟨p, hp, hpl, he⟩
      · by_cases hloud : meanSq t.1 > 225
        · refine Or.inr ⟨t, by simp, hloud, ?_⟩
          show (ts.foldl (fun s t => processAudioTick s t.1 t.2)
            (processAudioTick st t.1 t.2)).lastSpeechTimestamp = t.2
          rw [h]
          simp [processAudioTick, hloud]
        · refine Or.inl ?_
          show (ts.foldl (fun s t => processAudioTick s t.1 t.2)
            (processAudioTick st t.1 t.2)).lastSpeechTimestamp = st.lastSpeechTimestamp
          rw [h]
          simp [processAudioTick, hloud]
      · exact Or.inr ⟨p, by simp [hp], hpl, he⟩

/-- Scenario invariant for the VAD-hangover trace: starting from a state whose
window begins with the speech entry at time 0 and whose last-speech timestamp
is 0, any run of quiet ticks with timestamps in [0, 500] keeps the speech
entry at the head of the window, keeps the last-speech timestamp at 0, and
grows the window by at most one entry per tick. -/
theorem scenario_hist (rest : List (List ℚ × ℚ)) :
    ∀ (st : AudioState) (l : List (ℚ × Bool)),
    st.speechHistory = (0, true) :: l → st.lastSpeechTimestamp = 0 →
    (∀ p ∈ rest, ¬ meanSq p.1 > 225) → (∀ p ∈ rest, 0 ≤ p.2 ∧ p.2 ≤ 500) →
    ∃ l', (rest.foldl (fun s t => processAudioTick s t.1 t.2) st).speechHistory
            = (0, true) :: l' ∧
      (rest.foldl (fun s t => processAudioTick s t.1 t.2) st).lastSpeechTimestamp = 0 ∧
      (rest.foldl (fun s t => processAudioTick s t.1 t.2) st).speechHistory.length
        ≤ st.speechHistory.length + rest.length := by
  induction rest with
  | nil => exact fun st l hst hlast _ _ => ⟨l, hst, hlast, by simp⟩
  | cons t ts ih =>
      intro st l hst hlast hquiet htimes
      have hq : ¬ meanSq t.1 > 225 := hquiet t (by simp)
      have ht : 0 ≤ t.2 ∧ t.2 ≤ 500 := htimes t (by simp)
      have hdrop : ¬ (500 : ℚ) < t.2 := not_lt.mpr ht.2
      have hstep : processAudioTick st t.1 t.2 =
          AudioState.mk 0 ((0, true) :: (l ++ [(t.2, false)])) := by
        simp [processAudioTick, hq, hst, hlast, List.dropWhile_cons, hdrop]
      simp only [List.foldl_cons]
      rw [hstep]
      obtain ⟨l', h1, h2, h3⟩ :=
        ih (AudioState.mk 0 ((0, true) :: (l ++ [(t.2, false)])))
          (l ++ [(t.2, false)]) rfl rfl
          (fun p hp => hquiet p (by simp [hp])) (fun p hp => htimes p (by simp [hp]))
      refine ⟨l', h1, h2, ?_⟩
      refine le_trans h3 ?_
      simp [hst]
      omega

/-- Forced silence: whenever at least the 500 ms silence timeout has elapsed
since the last above-threshold sample, the metric computation returns speech
rate 0 and pause ratio 100. -/
theorem calc_forced_silence (st : AudioState) (now : ℚ)
    (h : 500 ≤ now - st.lastSpeechTimestamp) :
    calculateAudioMetrics st now = (0, 100) := by
  unfold calculateAudioMetrics
  rw [if_neg (not_lt.mpr h)]

/-- Speaking-branch bounds: while the time-0 speech entry is still inside a
window of at most 300 ticks and the last-speech timestamp is 0, a query
before the 500 ms hangover yields a speech rate of at least 1 and a pause
ratio strictly below 100. -/
theorem calc_speaking_bounds (st : AudioState) (now : ℚ) (l' : List (ℚ × Bool))
    (hh : st.speechHistory = (0, true) :: l') (hl : st.lastSpeechTimestamp = 0)
    (hlen : st.speechHistory.length ≤ 300) (hnow : now < 500) :
    1 ≤ (calculateAudioMetrics st now).1 ∧ (calculateAudioMetrics st now).2 < 100 := by
  have hcond : now - st.lastSpeechTimestamp < 500 := by rw [hl]; simpa using hnow
  have hT0 : 0 < st.speechHistory.length := by rw [hh]; simp
  have hS1 : 1 ≤ (st.speechHistory.filter fun p => p.2).length := by
    rw [hh, List.filter_cons]
    simp
  have hTQ : (0 : ℚ) < (st.speechHistory.length : ℚ) := by exact_mod_cast hT0
  have hTne : ((st.speechHistory.length : ℚ)) ≠ 0 := ne_of_gt hTQ
  have hT300 : ((st.speechHistory.length : ℚ)) ≤ 300 := by exact_mod_cast hlen
  have hSQ : (1 : ℚ) ≤ ((st.speechHistory.filter fun p => p.2).length : ℚ) := by
    exact_mod_cast hS1
  have hW : (0 : ℚ) < (st.speechHistory.length : ℚ) / 60 := by positivity
  have harith : ((st.speechHistory.filter fun p => p.2).length : ℚ) / 60 * (5/2) * 60 /
      ((st.speechHistory.length : ℚ) / 60) =
      ((st.speechHistory.filter fun p => p.2).length : ℚ) * 150 /
        (st.speechHistory.length : ℚ) := by
    field_simp
    ring
  unfold calculateAudioMetrics
  rw [if_pos hcond]
  simp only
  rw [if_pos hT0, if_pos hT0, if_pos hW, harith]
  constructor
  · show (1 : ℤ) ≤ jsRound _
    rw [jsRound]
    rw [Int.le_floor]
    have hfrac : (1 : ℚ) / 2 ≤
        ((st.speechHistory.filter fun p => p.2).length : ℚ) * 150 /
          (st.speechHistory.length : ℚ) := by
      rw [le_div_iff hTQ]
      nlinarith
    push_cast
    linarith
  · rw [toFixed1, jsRound]
    have hx : (1 - ((st.speechHistory.filter fun p => p.2).length : ℚ) /
        (st.speechHistory.length : ℚ)) * 100 ≤ 100 - 1/3 := by
      have hq : (1 : ℚ) / 300 ≤
          ((st.speechHistory.filter fun p => p.2).length : ℚ) /
            (st.speechHistory.length : ℚ) := by
        rw [div_le_div_iff (by norm_num) hTQ]
        nlinarith
      nlinarith
    have hfl : ((Int.floor (10 * ((1 - ((st.speechHistory.filter fun p => p.2).length : ℚ) /
        (st.speechHistory.length : ℚ)) * 100) + 1/2) : ℤ) : ℚ) ≤
        10 * ((1 - ((st.speechHistory.filter fun p => p.2).length : ℚ) /
          (st.speechHistory.length : ℚ)) * 100) + 1/2 := Int.floor_le _
    rw [div_lt_iff (by norm_num : (0:ℚ) < 10)]
    linarith

/-- C7: on every metric tick, whenever no sample has exceeded the speech
threshold within the last 500 ms the computation forces speechRate = 0 and
pauseRatio = 100 (third conjunct, stated over arbitrary tick traces); and on
the synthetic trace whose energy exceeds the threshold at t = 0 and never
again, with in-window tick count bounded by 300 (any real tick cadence),
speechRate stays ≥ 1 and pauseRatio stays < 100 — i.e.
pauseRatio = toFixed1 of (1 − speechFraction)·100 < 100 — strictly before the
hangover has elapsed, and both are forced to 0 / 100 from 500 ms on. -/
theorem vad_hangover (d0 : List ℚ) (rest : List (List ℚ × ℚ)) (now : ℚ)
    (hloud : meanSq d0 > 225)
    (hquiet : ∀ p ∈ rest, ¬ meanSq p.1 > 225)
    (htimes : ∀ p ∈ rest, 0 ≤ p.2 ∧ p.2 ≤ 500)
    (hcount : rest.length ≤ 299) :
    (now < 500 →
      1 ≤ (calculateAudioMetrics (runAudioTicks ((d0, 0) :: rest)) now).1 ∧
      (calculateAudioMetrics (runAudioTicks ((d0, 0) :: rest)) now).2 < 100) ∧
    (500 ≤ now →
      calculateAudioMetrics (runAudioTicks ((d0, 0) :: rest)) now = (0, 100)) ∧
    (∀ tr : List (List ℚ × ℚ), 500 ≤ now →
      (∀ p ∈ tr, now - 500 < p.2 → ¬ meanSq p.1 > 225) →
      calculateAudioMetrics (runAudioTicks tr) now = (0, 100)) := by
  have hstep1 : runAudioTicks ((d0, 0) :: rest) =
      rest.foldl (fun s t => processAudioTick s t.1 t.2) (AudioState.mk 0 [(0, true)]) := by
    simp [runAudioTicks, List.foldl_cons, processAudioTick, initAudioState, hloud]
  obtain ⟨l', hh, hl, hlenr⟩ :=
    scenario_hist rest (AudioState.mk 0 [(0, true)]) [] rfl rfl hquiet htimes
  have hlen : (rest.foldl (fun s t => processAudioTick s t.1 t.2)
      (AudioState.mk 0 [(0, true)])).speechHistory.length ≤ 300 := by
    refine le_trans hlenr ?_
    simp only [List.length_cons, List.length_nil]
    omega
  refine ⟨?_, ?_, ?_⟩
  · intro hnow
    rw [hstep1]
    exact calc_speaking_bounds _ now l' hh hl hlen hnow
  · intro hnow
    rw [hstep1]
    apply calc_forced_silence
    rw [hl]
    simpa using hnow
  · intro tr h500 hq
    rcases lastSpeech_cases initAudioState tr with h | ⟨p, hp, hpl, he⟩
    · have h0 : (runAudioTicks tr).lastSpeechTimestamp = 0 := h
      apply calc_forced_silence
      rw [h0]
      simpa using h500
    · have hpq : (runAudioTicks tr).lastSpeechTimestamp = p.2 := he
      apply calc_forced_silence
      rw [hpq]
      by_contra hcon
      push_neg at hcon
      exact (hq p hp (by linarith)) hpl

/-- Witness for C7 on a concrete trace: one above-threshold tick at t = 0
followed by one quiet tick at t = 100, queried at t = 499 (before hangover)
and t = 500 (hangover elapsed). -/
theorem vad_hangover_witness :
    (1 ≤ (calculateAudioMetrics (runAudioTicks [([16], 0), ([0], 100)]) 499).1 ∧
     (calculateAudioMetrics (runAudioTicks [([16], 0), ([0], 100)]) 499).2 < 100) ∧
    calculateAudioMetrics (runAudioTicks [([16], 0), ([0], 100)]) 500 = (0, 100) := by
  have hloud : meanSq [(16 : ℚ)] > 225 := by norm_num [meanSq, sumSq]
  have hquiet : ∀ p ∈ [(([(0 : ℚ)]), (100 : ℚ))] , ¬ meanSq p.1 > 225 := by
    intro p hp
    simp only [List.mem_singleton] at hp
    subst hp
    norm_num [meanSq, sumSq]
  have htimes : ∀ p ∈ [(([(0 : ℚ)]), (100 : ℚ))] , 0 ≤ p.2 ∧ p.2 ≤ 500 := by
    intro p hp
    simp only [List.mem_singleton] at hp
    subst hp
    norm_num
  have h1 := vad_hangover [16] [([0], 100)] 499 hloud hquiet htimes (by norm_num)
  have h2 := vad_hangover [16] [([0], 100)] 500 hloud hquiet htimes (by norm_num)
  exact ⟨h1.1 (by norm_num), h2.2.1 (by norm_num)⟩

/-- A server message carrying a single `save_assessment` tool call and no
content parts. -/
def oneToolCallMsg : ServerMessage :=
  { parts := none, toolCall := some [("save_assessment", topicOnlyArgs)] }

/-- C2: the message handler sends no tool-call acknowledgment back to the
remote agent — its outbound acknowledgment log is empty for every message and
every state — even though handling a `save_assessment` call does append the
corresponding assessment (shown on a concrete open-session message carrying
one tool call). -/
theorem no_tool_ack_sent :
    (∀ (c : ClientState) (g : GraphState) (msg : ServerMessage)
        (m : AnalysisMetrics) (clock now : ℚ),
      (safeHandleMessage c g msg m clock now).2.2 = []) ∧
    (safeHandleMessage sampleOpenClient (initGraph 10) oneToolCallMsg
      initialMetrics 0 0).2.1.state.analyses.length = 1 := by
  constructor
  · intro c g msg m clock now
    unfold safeHandleMessage
    split <;> rfl
  · rfl

/-- Witness for C6 (amended) at a concrete call: empty buffers and an
argument-less tool call yield the generic placeholder question, the
no-response marker answer, and the by-value metrics snapshot. -/
theorem handleAssessment_priority_witness :
    ∃ qa : QuestionAnalysis,
      (handleAssessment emptyQuestionGraph emptyArgs initialMetrics 0).state.analyses =
        emptyQuestionGraph.state.analyses ++ [qa] ∧
      qa.questionText = "Interview Question" ∧
      qa.userAnswer = "(No audio response detected)" ∧
      qa.metrics = initialMetrics := by
  obtain ⟨qa, happ, _, _, _, h4, _, _, h7, hm, hcm, _⟩ :=
    handleAssessment_priority emptyQuestionGraph emptyArgs initialMetrics 0
  exact ⟨qa, happ, h4 (Or.inl rfl) rfl (Or.inl rfl),
         h7 (by decide) (Or.inl rfl), by rw [hm, hcm]⟩
